import Mathlib

/-!
Shallow embedding of `KvaserLib.py` (CANopen SDO client, CiA402 drive
state machine, profile-velocity motion orchestration, heartbeat monitor).

Two levels are modelled, both directly from the source:

* Frame level: the exact CAN frames built by `sdo_read_access` /
  `sdo_write_access`, the response-correlation loop of `sdo_read_access`
  over the stream of frames received before its deadline, and the
  heartbeat-counting loop of `fetch_telegrams` over the frames received
  during its observation window.

* Procedure level: the drive procedures (`enable_drive`, `disable_drive`,
  `set_cia402_mode_of_operation`, `move_motor_in_profile_velocity`) as
  functions of the sequence of SDO read results the drive returns, with
  the observable being the ordered trace of SDO accesses issued to the
  transport.  Python exceptions (a `TypeError` from `None & 0x4F`) are
  modelled with an explicit error component that short-circuits while
  keeping the trace issued so far.  `time.sleep` settle delays and
  `print` diagnostics do not touch the transport and carry no data, so
  they are not part of the trace.
-/

namespace Kvaser

/-- A CAN frame: 11-bit identifier and up to 8 data bytes
(`Frame(id_=..., data=...)` in `canlib`). -/
structure CanFrame where
  id : Nat
  data : List Nat
deriving DecidableEq, Repr

/-- `int.from_bytes(bs, byteorder='little')` on a list of bytes. -/
def from_bytes_le : List Nat → Nat
  | [] => 0
  | b :: bs => b + 256 * from_bytes_le bs

/-- The request frame built by `sdo_read_access` (KvaserLib.py lines 16-21):
`cob_id = 0x600 + node_id`,
`sdo_data = [0x40, index & 0xFF, (index >> 8) & 0xFF, subindex, 0, 0, 0, 0]`. -/
def sdoReadRequestFrame (node_id index subindex : Nat) : CanFrame :=
  { id := 0x600 + node_id
    data := [0x40, index &&& 0xFF, (index >>> 8) &&& 0xFF, subindex, 0, 0, 0, 0] }

/-- The response-correlation loop of `sdo_read_access` (lines 27-39), run on
the stream of frames received before the deadline: the first frame whose id
equals `cob_id - 0x80` is accepted and its bytes `4:` are decoded
little-endian; every other frame is discarded; if the stream is exhausted
(deadline reached with no match) the result is `none`. -/
def sdo_read_poll (node_id : Nat) : List CanFrame → Option Nat
  | [] => none
  | f :: rest =>
      if f.id = 0x600 + node_id - 0x80 then
        some (from_bytes_le (f.data.drop 4))
      else
        sdo_read_poll node_id rest

/-- `sdo_read_access` at frame level: the request frame it sends once, and
the result of polling the incoming frames for the matching response. -/
def sdo_read_access (node_id index subindex : Nat) (incoming : List CanFrame) :
    CanFrame × Option Nat :=
  (sdoReadRequestFrame node_id index subindex, sdo_read_poll node_id incoming)

/-- The request frame built by `sdo_write_access` (lines 57-62):
`sdo_command = 0x2B` always, payload bytes 4-5 carry the low 16 bits of
`data`, bytes 6-7 are zero. -/
def sdoWriteRequestFrame (node_id index subindex data : Nat) : CanFrame :=
  { id := 0x600 + node_id
    data := [0x2B, index &&& 0xFF, (index >>> 8) &&& 0xFF, subindex,
             data &&& 0xFF, (data >>> 8) &&& 0xFF, 0, 0] }

/-- Outcome of the single `channel.write(frame)` attempt. -/
inductive SendOutcome where
  | ok : SendOutcome
  | failed : SendOutcome
deriving DecidableEq, Repr

/-- Observable effect of one `sdo_write_access` call: the send attempts it
makes, the number of `channel.read` calls it performs, and whether a send
failure was reported (the `except` branch printing the diagnostic). -/
structure WriteEffect where
  sentFrames : List CanFrame
  receiveAttempts : Nat
  failureReported : Bool
deriving DecidableEq, Repr

/-- `sdo_write_access` (lines 46-67): builds the frame, attempts exactly one
send, performs no receive, reports a send failure and does not retry. -/
def sdo_write_access (node_id index subindex data : Nat) (send : SendOutcome) :
    WriteEffect :=
  { sentFrames := [sdoWriteRequestFrame node_id index subindex data]
    receiveAttempts := 0
    failureReported := match send with
      | SendOutcome.ok => false
      | SendOutcome.failed => true }

/-- `fetch_telegrams` (lines 206-233) over the frames received during the
observation window: the counter is incremented exactly when
`frame.id == 0x700 + 127` (the monitored node is hard-coded to 127); the
value is the final count reported (printed) when the window closes — the
Python function itself returns `None`. -/
def fetch_telegrams (frames : List CanFrame) : Nat :=
  frames.foldl (fun cnt f => if f.id = 0x700 + 127 then cnt + 1 else cnt) 0

/-! ## Procedure-level model -/

/-- One SDO access issued to the transport by a drive procedure
(each corresponds to one request frame on the wire). -/
inductive Event where
  | writeObj : Nat → Nat → Nat → Event
  | readObj : Nat → Nat → Event
deriving DecidableEq, Repr

/-- State threaded through a drive procedure: `pending` is the sequence of
results the drive returns to successive `sdo_read_access` calls (`none` for
a timeout; an exhausted list means every further read times out), and
`trace` is the ordered list of SDO accesses issued so far. -/
structure DriveSt where
  pending : List (Option Nat)
  trace : List Event
deriving DecidableEq, Repr

/-- The Python `TypeError` raised by `None & 0x4F`. -/
inductive PyErr where
  | typeError : PyErr
deriving DecidableEq, Repr

/-- One `sdo_read_access` call inside a drive procedure: consume the next
pending read result and record the access. -/
def sdoReadStep (index subindex : Nat) (s : DriveSt) : Option Nat × DriveSt :=
  (s.pending.headD none,
   { pending := s.pending.tail
     trace := s.trace ++ [Event.readObj index subindex] })

/-- One `sdo_write_access` call inside a drive procedure: record the access
(the write waits for no confirmation, so nothing is consumed). -/
def sdoWriteStep (index subindex data : Nat) (s : DriveSt) : DriveSt :=
  { pending := s.pending
    trace := s.trace ++ [Event.writeObj index subindex data] }

/-- The four controlword commands of the enabling sequence
(lines 95-100). -/
def enableCommands : List Nat := [0x00, 0x06, 0x07, 0x0F]

/-- The `for command, description in commands` loop (lines 102-106): write
the command to 0x6040, settle, read the statusword. -/
def enableLoop : List Nat → DriveSt → DriveSt
  | [], s => s
  | c :: cs, s =>
      enableLoop cs ((sdoReadStep 0x6041 0x00 (sdoWriteStep 0x6040 0x00 c s)).2)

/-- `enable_drive` (lines 69-108): read the statusword; if it shows
fault-reaction-active (`& 0x4F == 0x0F`) only a diagnostic is printed; if it
shows fault (`& 0x4F == 0x08`) write the fault-reset command 0x80, re-read
the statusword and evaluate `read_data & 0x4F` on the result (a `TypeError`
if the re-read timed out and returned `None`); in every non-raising case
fall through to the four-command enabling sequence. -/
def enable_drive (s : DriveSt) : DriveSt × Option PyErr :=
  let q := sdoReadStep 0x6041 0x00 s
  match q.1 with
  | none => (enableLoop enableCommands q.2, none)
  | some v =>
      if v &&& 0x4F = 0x0F then
        (enableLoop enableCommands q.2, none)
      else if v &&& 0x4F = 0x08 then
        let q2 := sdoReadStep 0x6041 0x00 (sdoWriteStep 0x6040 0x00 0x80 q.2)
        match q2.1 with
        | none => (q2.2, some PyErr.typeError)
        | some _ => (enableLoop enableCommands q2.2, none)
      else
        (enableLoop enableCommands q.2, none)

/-- `disable_drive` (lines 110-144): the same fault-check block as
`enable_drive` (duplicated in the source), then the disable-voltage write
0x00 to 0x6040 followed by a statusword read whose value is only checked
for a diagnostic (guarded by `is not None`, so no `TypeError` there). -/
def disable_drive (s : DriveSt) : DriveSt × Option PyErr :=
  let q := sdoReadStep 0x6041 0x00 s
  let afterFault : DriveSt × Option PyErr :=
    match q.1 with
    | none => (q.2, none)
    | some v =>
        if v &&& 0x4F = 0x0F then
          (q.2, none)
        else if v &&& 0x4F = 0x08 then
          let q2 := sdoReadStep 0x6041 0x00 (sdoWriteStep 0x6040 0x00 0x80 q.2)
          match q2.1 with
          | none => (q2.2, some PyErr.typeError)
          | some _ => (q2.2, none)
        else
          (q.2, none)
  match afterFault with
  | (s1, some e) => (s1, some e)
  | (s1, none) =>
      ((sdoReadStep 0x6041 0x00 (sdoWriteStep 0x6040 0x00 0x00 s1)).2, none)

/-- `set_cia402_mode_of_operation` (lines 146-156): unconditional write of
`mode` to 0x6060. -/
def set_cia402_mode_of_operation (mode : Nat) (s : DriveSt) : DriveSt :=
  sdoWriteStep 0x6060 0x00 mode s

/-- The statusword guard of line 190:
`status_word is None or (status_word & 0x0000006F) != 0x00000027`. -/
def statusNotEnabled : Option Nat → Bool
  | none => true
  | some w => !(w &&& 0x6F == 0x27)

/-- Lines 171-179 of `move_motor_in_profile_velocity`: read 0x6083 and
0x6084; if either differs from the request (a `None` read also differs),
disable the drive and write both objects. -/
def moveAccelDecel (accel decel : Nat) (s : DriveSt) : DriveSt × Option PyErr :=
  let qa := sdoReadStep 0x6083 0x00 s
  let qd := sdoReadStep 0x6084 0x00 qa.2
  if qa.1 ≠ some accel ∨ qd.1 ≠ some decel then
    match disable_drive qd.2 with
    | (s1, some e) => (s1, some e)
    | (s1, none) =>
        (sdoWriteStep 0x6084 0x00 decel (sdoWriteStep 0x6083 0x00 accel s1), none)
  else
    (qd.2, none)

/-- Lines 181-186: read mode-of-operation-display 0x6061; if it differs
from 3, disable, set mode 3, re-enable. -/
def moveModeCheck (s : DriveSt) : DriveSt × Option PyErr :=
  let qm := sdoReadStep 0x6061 0x00 s
  if qm.1 ≠ some 3 then
    match disable_drive qm.2 with
    | (s1, some e) => (s1, some e)
    | (s1, none) => enable_drive (set_cia402_mode_of_operation 3 s1)
  else
    (qm.2, none)

/-- Lines 188-191: read the statusword and run the enable sequence when it
is `None` or not the operation-enabled pattern. -/
def moveStatusCheck (s : DriveSt) : DriveSt × Option PyErr :=
  let qs := sdoReadStep 0x6041 0x00 s
  if statusNotEnabled qs.1 then enable_drive qs.2 else (qs.2, none)

/-- `move_motor_in_profile_velocity` (lines 158-204).  The heartbeat window
(`fetch_telegrams`, line 200) only reads raw frames and issues no SDO
access, so it contributes nothing to the trace; it is modelled at frame
level by `fetch_telegrams` above. -/
def move_motor_in_profile_velocity (speed accel decel : Nat)
    (disable_after_motion : Bool) (s : DriveSt) : DriveSt × Option PyErr :=
  match moveAccelDecel accel decel s with
  | (s1, some e) => (s1, some e)
  | (s1, none) =>
      match moveModeCheck s1 with
      | (s2, some e) => (s2, some e)
      | (s2, none) =>
          match moveStatusCheck s2 with
          | (s3, some e) => (s3, some e)
          | (s3, none) =>
              let s4 := sdoWriteStep 0x60FF 0x00 speed s3
              if disable_after_motion then disable_drive s4 else (s4, none)

/-! ## Helper lemmas -/

lemma and255 (x : Nat) : x &&& 255 = x % 256 := by
  have h := Nat.and_pow_two_sub_one_eq_mod x 8
  norm_num at h
  exact h

lemma shift8 (x : Nat) : x >>> 8 = x / 256 := by
  have h := Nat.shiftRight_eq_div_pow x 8
  norm_num at h
  exact h

/-- The events appended by `enableLoop` for a given command list. -/
def loopEvents : List Nat → List Event
  | [] => []
  | c :: cs => Event.writeObj 0x6040 0x00 c :: Event.readObj 0x6041 0x00 :: loopEvents cs

lemma enableLoop_trace (cs : List Nat) (s : DriveSt) :
    (enableLoop cs s).trace = s.trace ++ loopEvents cs := by
  induction cs generalizing s with
  | nil => simp [enableLoop, loopEvents]
  | cons c cs ih => simp [enableLoop, loopEvents, sdoReadStep, sdoWriteStep, ih]

/-- Recognises a write to one of the profile-configuration objects
0x6083 (accel), 0x6084 (decel), 0x6060 (mode of operation). -/
def isCfgWrite : Event → Bool
  | Event.writeObj i _ _ => i == 0x6083 || i == 0x6084 || i == 0x6060
  | Event.readObj _ _ => false

lemma loopEvents_cfg (cs : List Nat) : (loopEvents cs).filter isCfgWrite = [] := by
  induction cs with
  | nil => simp [loopEvents]
  | cons c cs ih => simp [loopEvents, isCfgWrite, ih]

lemma enable_drive_cfg (s : DriveSt) :
    ((enable_drive s).1).trace.filter isCfgWrite = s.trace.filter isCfgWrite := by
  obtain ⟨p, t⟩ := s
  cases p with
  | nil =>
      simp [enable_drive, sdoReadStep, sdoWriteStep, enableLoop_trace,
            List.filter_append, loopEvents_cfg, isCfgWrite]
  | cons r rest =>
      cases r with
      | none =>
          simp [enable_drive, sdoReadStep, sdoWriteStep, enableLoop_trace,
                List.filter_append, loopEvents_cfg, isCfgWrite]
      | some v =>
          by_cases h1 : v &&& 0x4F = 0x0F
          · simp [enable_drive, sdoReadStep, sdoWriteStep, enableLoop_trace,
                  List.filter_append, loopEvents_cfg, isCfgWrite, h1]
          · by_cases h2 : v &&& 0x4F = 0x08
            · cases rest with
              | nil =>
                  simp [enable_drive, sdoReadStep, sdoWriteStep, enableLoop_trace,
                        List.filter_append, loopEvents_cfg, isCfgWrite, h1, h2]
              | cons r2 rest2 =>
                  cases r2 with
                  | none =>
                      simp [enable_drive, sdoReadStep, sdoWriteStep, enableLoop_trace,
                            List.filter_append, loopEvents_cfg, isCfgWrite, h1, h2]
                  | some w =>
                      simp [enable_drive, sdoReadStep, sdoWriteStep, enableLoop_trace,
                            List.filter_append, loopEvents_cfg, isCfgWrite, h1, h2]
            · simp [enable_drive, sdoReadStep, sdoWriteStep, enableLoop_trace,
                    List.filter_append, loopEvents_cfg, isCfgWrite, h1, h2]

lemma disable_drive_cfg (s : DriveSt) :
    ((disable_drive s).1).trace.filter isCfgWrite = s.trace.filter isCfgWrite := by
  obtain ⟨p, t⟩ := s
  cases p with
  | nil =>
      simp [disable_drive, sdoReadStep, sdoWriteStep, List.filter_append, isCfgWrite]
  | cons r rest =>
      cases r with
      | none =>
          simp [disable_drive, sdoReadStep, sdoWriteStep, List.filter_append, isCfgWrite]
      | some v =>
          by_cases h1 : v &&& 0x4F = 0x0F
          · simp [disable_drive, sdoReadStep, sdoWriteStep, List.filter_append, isCfgWrite, h1]
          · by_cases h2 : v &&& 0x4F = 0x08
            · cases rest with
              | nil =>
                  simp [disable_drive, sdoReadStep, sdoWriteStep, List.filter_append,
                        isCfgWrite, h1, h2]
              | cons r2 rest2 =>
                  cases r2 with
                  | none =>
                      simp [disable_drive, sdoReadStep, sdoWriteStep, List.filter_append,
                            isCfgWrite, h1, h2]
                  | some w =>
                      simp [disable_drive, sdoReadStep, sdoWriteStep, List.filter_append,
                            isCfgWrite, h1, h2]
            · simp [disable_drive, sdoReadStep, sdoWriteStep, List.filter_append,
                    isCfgWrite, h1, h2]

lemma moveStatusCheck_cfg (s : DriveSt) :
    ((moveStatusCheck s).1).trace.filter isCfgWrite = s.trace.filter isCfgWrite := by
  unfold moveStatusCheck
  by_cases h : statusNotEnabled (sdoReadStep 0x6041 0x00 s).1
  · simp only [h, if_true]
    rw [enable_drive_cfg]
    simp [sdoReadStep, List.filter_append, isCfgWrite]
  · simp only [h, if_false]
    simp [sdoReadStep, List.filter_append, isCfgWrite]

/-- The exact trace of `enable_drive` when the initial statusword shows a
fault and the post-reset statusword read succeeds: fault reset first, then
the four enable commands in order, each followed by a statusword read. -/
def enableFaultTrace : List Event :=
  [Event.readObj 0x6041 0x00, Event.writeObj 0x6040 0x00 0x80, Event.readObj 0x6041 0x00,
   Event.writeObj 0x6040 0x00 0x00, Event.readObj 0x6041 0x00,
   Event.writeObj 0x6040 0x00 0x06, Event.readObj 0x6041 0x00,
   Event.writeObj 0x6040 0x00 0x07, Event.readObj 0x6041 0x00,
   Event.writeObj 0x6040 0x00 0x0F, Event.readObj 0x6041 0x00]

/-! ## Claim theorems -/

/-- C1 (code bug): with the initial statusword read returning 0x0F
(fault-reaction-active, since `0x0F & 0x4F == 0x0F`), `enable_drive` prints
that enabling is not possible but then still falls through to the full
four-command enable sequence, and `disable_drive` likewise still issues the
disable-voltage write: the frames sent after the initial read are not empty,
contradicting the claim that no controlword write is issued at all. -/
theorem fault_reaction_active_still_writes :
    (0x0F &&& 0x4F = 0x0F) ∧
    (enable_drive { pending := [some 0x0F], trace := [] }).1.trace =
      [Event.readObj 0x6041 0x00,
       Event.writeObj 0x6040 0x00 0x00, Event.readObj 0x6041 0x00,
       Event.writeObj 0x6040 0x00 0x06, Event.readObj 0x6041 0x00,
       Event.writeObj 0x6040 0x00 0x07, Event.readObj 0x6041 0x00,
       Event.writeObj 0x6040 0x00 0x0F, Event.readObj 0x6041 0x00] ∧
    ((enable_drive { pending := [some 0x0F], trace := [] }).1.trace).drop 1 ≠ [] ∧
    (disable_drive { pending := [some 0x0F], trace := [] }).1.trace =
      [Event.readObj 0x6041 0x00,
       Event.writeObj 0x6040 0x00 0x00, Event.readObj 0x6041 0x00] := by
  decide

/-- C2: `sdo_read_access` returns the little-endian decoding of bytes 4
onward of the first incoming frame whose id equals
`0x600 + node_id - 0x80` (= `0x580 + node_id`); all other frames are
discarded, and if no matching frame arrives before the deadline the result
is `none`. -/
theorem sdo_read_access_correlation (node index sub : Nat) (frames : List CanFrame) :
    (sdo_read_access node index sub frames).2 =
      (frames.find? (fun f => f.id == 0x600 + node - 0x80)).map
        (fun f => from_bytes_le (f.data.drop 4)) ∧
    0x600 + node - 0x80 = 0x580 + node := by
  refine ⟨?_, by omega⟩
  induction frames with
  | nil => rfl
  | cons f rest ih =>
      by_cases h : f.id = 0x600 + node - 0x80
      · have hb : (f.id == 0x600 + node - 0x80) = true := by simp [h]
        simp [sdo_read_access, sdo_read_poll, List.find?, h, hb]
      · have hb : (f.id == 0x600 + node - 0x80) = false := by simp [h]
        simp only [sdo_read_access, sdo_read_poll, List.find?, h, hb, if_false] at ih ⊢
        simpa [h, hb] using ih

/-- C3: if the drive reports the requested acceleration at 0x6083, the
requested deceleration at 0x6084 and mode 3 at 0x6061 — the values a first
identical call established — then a second
`move_motor_in_profile_velocity` call issues zero writes to 0x6083, 0x6084
and 0x6060, whatever the remaining read results and the
`disable_after_motion` flag. -/
theorem move_profile_velocity_idempotent_config (speed accel decel : Nat) (da : Bool)
    (rest : List (Option Nat)) :
    ((move_motor_in_profile_velocity speed accel decel da
        { pending := some accel :: some decel :: some 3 :: rest,
          trace := [] }).1).trace.filter isCfgWrite = [] := by
  unfold move_motor_in_profile_velocity moveAccelDecel moveModeCheck
  simp only [sdoReadStep, sdoWriteStep, List.headD_cons, List.tail_cons, ne_eq,
             not_true_eq_false, false_or, or_self, if_false, ite_false]
  rcases hms : moveStatusCheck
      { pending := rest,
        trace := [] ++ [Event.readObj 0x6083 0x00] ++ [Event.readObj 0x6084 0x00] ++
          [Event.readObj 0x6061 0x00] } with ⟨s3, e⟩
  have hcfg := moveStatusCheck_cfg
      { pending := rest,
        trace := [] ++ [Event.readObj 0x6083 0x00] ++ [Event.readObj 0x6084 0x00] ++
          [Event.readObj 0x6061 0x00] }
  rw [hms] at hcfg
  simp only [isCfgWrite, List.filter_append, List.filter_cons, List.filter_nil] at hcfg
  norm_num at hcfg
  cases e with
  | some e => simpa using hcfg
  | none =>
      cases da with
      | true =>
          simp only [ite_true]
          rw [disable_drive_cfg]
          simp [List.filter_append, isCfgWrite]
          intro a ha
          simpa [isCfgWrite] using hcfg a ha
      | false =>
          simp [List.filter_append, isCfgWrite]
          intro a ha
          simpa [isCfgWrite] using hcfg a ha

/-- C4 counterexample: the heartbeat counter is hard-wired to node 127, so
for `node_id = 5` a heartbeat frame with id `0x700 + 5` does not increment
the count — the claim, which predicts a count of 1, fails. -/
theorem fetch_telegrams_node_id_cex :
    ¬ (fetch_telegrams [{ id := 0x700 + 5, data := [] }] = 1) := by decide

/-- C4 (amended): the heartbeat counter of `fetch_telegrams` increases by
exactly 1 per received frame whose id equals `0x700 + 127` — the monitored
node is fixed at 127, independent of any node_id — frames with any other id
never change it, and the final count is the value reported when the window
closes. -/
theorem fetch_telegrams_counts_node127 (frames : List CanFrame) :
    fetch_telegrams frames = frames.countP (fun f => f.id == 0x700 + 127) := by
  have aux : ∀ (fs : List CanFrame) (n : Nat),
      fs.foldl (fun cnt f => if f.id = 0x700 + 127 then cnt + 1 else cnt) n =
        n + fs.countP (fun f => f.id == 0x700 + 127) := by
    intro fs
    induction fs with
    | nil => intro n; simp
    | cons f rest ih =>
        intro n
        by_cases h : f.id = 0x700 + 127
        · simp [List.countP_cons, h, ih]
          omega
        · simp [List.countP_cons, h, ih]
  simpa using aux frames 0

/-- C5: when the initial statusword shows a fault (`v & 0x4F == 0x08`) and
the post-reset statusword read succeeds, `enable_drive` writes the fault
reset 0x80 to 0x6040 before any enable-sequence command, then writes
exactly 0x00, 0x06, 0x07, 0x0F in that order, each followed by a
statusword read (`enableFaultTrace` lists the full trace). -/
theorem enable_drive_fault_reset_first (v v2 : Nat) (rest : List (Option Nat))
    (h : v &&& 0x4F = 0x08) :
    (enable_drive { pending := some v :: some v2 :: rest, trace := [] }).1.trace =
      enableFaultTrace ∧
    (enable_drive { pending := some v :: some v2 :: rest, trace := [] }).2 = none := by
  constructor <;>
    simp [enable_drive, sdoReadStep, sdoWriteStep, enableLoop, enableCommands,
          enableFaultTrace, h]

/-- C5 witness: the statement instantiated at statusword 0x08 with a
post-reset statusword of 0x40. -/
theorem enable_drive_fault_reset_first_witness :
    (8 &&& 0x4F = 0x08) ∧
    ((enable_drive { pending := some 8 :: some 0x40 :: [], trace := [] }).1.trace =
        enableFaultTrace ∧
      (enable_drive { pending := some 8 :: some 0x40 :: [], trace := [] }).2 = none) :=
  ⟨by decide, enable_drive_fault_reset_first 8 0x40 [] (by decide)⟩

/-- C6: for every node_id, 16-bit index and 8-bit subindex, the read
request frame has cob-id `0x600 + node_id` and data
`[0x40, index low byte, index high byte, subindex, 0, 0, 0, 0]` — the two
index bytes recompose to the index. -/
theorem sdo_read_request_wellformed (node index sub : Nat)
    (h1 : index < 2 ^ 16) (h2 : sub < 2 ^ 8) :
    (sdoReadRequestFrame node index sub).id = 0x600 + node ∧
    (sdoReadRequestFrame node index sub).data =
      [0x40, index % 256, index / 256, sub, 0, 0, 0, 0] ∧
    index % 256 + 256 * (index / 256) = index := by
  refine ⟨rfl, ?_, by omega⟩
  have hb : index &&& 255 = index % 256 := and255 index
  have hc : (index >>> 8) &&& 255 = index / 256 := by
    rw [shift8, and255]
    omega
  simp [sdoReadRequestFrame, hb, hc]

/-- C6 witness: the statement instantiated at node 127, index 0x6041
(statusword), subindex 0. -/
theorem sdo_read_request_wellformed_witness :
    (0x6041 < 2 ^ 16) ∧ (0 < 2 ^ 8) ∧
    ((sdoReadRequestFrame 127 0x6041 0).id = 0x600 + 127 ∧
      (sdoReadRequestFrame 127 0x6041 0).data =
        [0x40, 0x6041 % 256, 0x6041 / 256, 0, 0, 0, 0, 0] ∧
      0x6041 % 256 + 256 * (0x6041 / 256) = 0x6041) :=
  ⟨by decide, by decide, sdo_read_request_wellformed 127 0x6041 0 (by decide) (by decide)⟩

/-- C7: `sdo_write_access` attempts exactly one send whose frame always
carries command byte 0x2B, performs no receive (it never waits for or
validates a write confirmation), reports a transport send failure, and
does not retry (the sent-frame list stays a singleton for every send
outcome). -/
theorem sdo_write_single_send_unconfirmed (node index sub d : Nat) (send : SendOutcome) :
    (sdo_write_access node index sub d send).sentFrames =
      [sdoWriteRequestFrame node index sub d] ∧
    (sdoWriteRequestFrame node index sub d).data.headD 0 = 0x2B ∧
    (sdo_write_access node index sub d send).receiveAttempts = 0 ∧
    (sdo_write_access node index sub d SendOutcome.failed).failureReported = true :=
  ⟨rfl, rfl, rfl, rfl⟩

/-- C8: only the low 16 bits of the value reach the wire: payload bytes 4
and 5 are `d & 0xFF` and `(d >> 8) & 0xFF`, bytes 6 and 7 are always zero,
and the two bytes recompose to `d mod 2^16` — larger values are silently
truncated. -/
theorem sdo_write_truncates_to_16_bits (node index sub d : Nat) :
    (sdoWriteRequestFrame node index sub d).data.getD 4 0 = d &&& 0xFF ∧
    (sdoWriteRequestFrame node index sub d).data.getD 5 0 = (d >>> 8) &&& 0xFF ∧
    (sdoWriteRequestFrame node index sub d).data.getD 6 0 = 0 ∧
    (sdoWriteRequestFrame node index sub d).data.getD 7 0 = 0 ∧
    (d &&& 0xFF) + 256 * ((d >>> 8) &&& 0xFF) = d % 2 ^ 16 := by
  refine ⟨rfl, rfl, rfl, rfl, ?_⟩
  rw [and255, shift8, and255]
  omega

/-- C9: in both `enable_drive` and `disable_drive`, when the fault-reset
branch is taken (initial statusword `& 0x4F == 0x08`) and the statusword
re-read after the reset times out (`None`), the unguarded
`read_data & 0x4F` raises a `TypeError` instead of reporting a diagnostic
and continuing. -/
theorem fault_reset_timeout_raises (v : Nat) (rest : List (Option Nat)) (t : List Event)
    (h : v &&& 0x4F = 0x08) :
    (enable_drive { pending := some v :: none :: rest, trace := t }).2 =
      some PyErr.typeError ∧
    (disable_drive { pending := some v :: none :: rest, trace := t }).2 =
      some PyErr.typeError := by
  constructor <;> simp [enable_drive, disable_drive, sdoReadStep, sdoWriteStep, h]

/-- C9 witness: the statement instantiated at statusword 0x08 with the
re-read timing out. -/
theorem fault_reset_timeout_raises_witness :
    (8 &&& 0x4F = 0x08) ∧
    ((enable_drive { pending := some 8 :: none :: [], trace := [] }).2 =
        some PyErr.typeError ∧
      (disable_drive { pending := some 8 :: none :: [], trace := [] }).2 =
        some PyErr.typeError) :=
  ⟨by decide, fault_reset_timeout_raises 8 [] [] (by decide)⟩

/-- C10: when the statusword read before the velocity setpoint returns
`None`, `move_motor_in_profile_velocity`'s status step runs the enable
sequence, and it behaves exactly as when the statusword shows the drive
not fully operation-enabled (`w & 0x6F != 0x27`) — an unreadable statusword
is never treated as enabled. -/
theorem move_status_timeout_runs_enable (w : Nat) (rest : List (Option Nat)) (t : List Event)
    (h : w &&& 0x6F ≠ 0x27) :
    moveStatusCheck { pending := none :: rest, trace := t } =
      enable_drive { pending := rest, trace := t ++ [Event.readObj 0x6041 0x00] } ∧
    moveStatusCheck { pending := some w :: rest, trace := t } =
      moveStatusCheck { pending := none :: rest, trace := t } := by
  constructor <;> simp [moveStatusCheck, statusNotEnabled, sdoReadStep, h]

/-- C10 witness: the statement instantiated at statusword 0. -/
theorem move_status_timeout_runs_enable_witness :
    (0 &&& 0x6F ≠ 0x27) ∧
    (moveStatusCheck { pending := none :: ([] : List (Option Nat)), trace := [] } =
        enable_drive { pending := [], trace := [] ++ [Event.readObj 0x6041 0x00] } ∧
      moveStatusCheck { pending := some 0 :: ([] : List (Option Nat)), trace := [] } =
        moveStatusCheck { pending := none :: ([] : List (Option Nat)), trace := [] }) :=
  ⟨by decide, move_status_timeout_runs_enable 0 [] [] (by decide)⟩

end Kvaser
